import Mathlib

/-!
Verification of the Todo entity of the `ai-dev-tools` repository
(`01-todo`). The repository ships `todos/forms.py` and `todos/tests.py`;
the Django model (`todos/models.py`) and the views are not among the
source files, so the entity's fields, defaults, ordering, overdue
computation and the CRUD operations are modelled from the specification,
while the form's field list is embedded from `todos/forms.py`.
-/

/-- A calendar date, as a number of days on a linear time line. -/
abbrev Date := Int

/-- Modelled from the spec: the `Todo` record of the missing
`todos/models.py` (section 3 of the spec): id, title, description,
optional due date, resolution flag and the two timestamps. -/
structure Todo where
  id : Nat
  title : String
  description : String
  due_date : Option Date
  is_resolved : Bool
  created_at : Nat
  updated_at : Nat
deriving Repr, DecidableEq

/-- Modelled from the spec: `Todo.is_overdue()` of the missing
`todos/models.py` — true iff `due_date` is present, `due_date` is
strictly before the current date, and `is_resolved` is false. -/
def Todo.is_overdue (t : Todo) (today : Date) : Bool :=
  match t.due_date with
  | none => false
  | some d => decide (d < today) && !t.is_resolved

/-- The stored table of Todo records together with the id generator. -/
structure TodoStore where
  records : List Todo
  nextId : Nat
deriving Repr, DecidableEq

/-- The error taxonomy of section 7 of the spec: `ValidationError`
(missing or oversized title, surfaced as a form re-render) and
`NotFoundError` (unknown id, surfaced as a 404 response). -/
inductive TodoError where
  | ValidationError
  | NotFoundError
deriving Repr, DecidableEq

/-- Modelled from the spec: the title constraint checked by the model
form — the title must not be the empty string and must not exceed 200
characters. -/
def validTitle (title : String) : Bool :=
  !(title == "") && decide (title.length ≤ 200)

/-- Lookup by id: the first stored record carrying the id. -/
def TodoStore.lookup (s : TodoStore) (id : Nat) : Option Todo :=
  s.records.find? (fun r => r.id == id)

/-- Modelled from the spec: `create(title, description="", due_date=None,
is_resolved=false)` — a new record with a generated id and both
timestamps set to the current instant, or `ValidationError` when the
title is empty or over 200 characters. -/
def TodoStore.create (s : TodoStore) (now : Nat) (title descr : String)
    (due_date : Option Date) (is_resolved : Bool) :
    Except TodoError (TodoStore × Todo) :=
  if validTitle title then
    let t : Todo :=
      { id := s.nextId, title := title, description := descr,
        due_date := due_date, is_resolved := is_resolved,
        created_at := now, updated_at := now }
    Except.ok ({ records := s.records ++ [t], nextId := s.nextId + 1 }, t)
  else
    Except.error TodoError.ValidationError

/-- `create` with only the title supplied: the defaults of the spec
(`description=""`, `due_date=None`, `is_resolved=false`). -/
def TodoStore.create_default (s : TodoStore) (now : Nat) (title : String) :
    Except TodoError (TodoStore × Todo) :=
  s.create now title "" none false

/-- The subset of fields an update supplies; `none` means the field is
not part of the update and keeps its stored value. -/
structure UpdateFields where
  title : Option String := none
  description : Option String := none
  due_date : Option (Option Date) := none
  is_resolved : Option Bool := none
deriving Repr, DecidableEq

/-- Apply an update's fields to a record, refreshing `updated_at`;
`id` and `created_at` are not touched. -/
def applyFields (t : Todo) (f : UpdateFields) (now : Nat) : Todo :=
  { t with
    title := f.title.getD t.title,
    description := f.description.getD t.description,
    due_date := f.due_date.getD t.due_date,
    is_resolved := f.is_resolved.getD t.is_resolved,
    updated_at := now }

/-- Modelled from the spec: `update(id, fields)` — applies the given
field changes and refreshes `updated_at`; `NotFoundError` when the id
does not exist, `ValidationError` on the same title constraint as
create. -/
def TodoStore.update (s : TodoStore) (id : Nat) (now : Nat)
    (f : UpdateFields) : Except TodoError TodoStore :=
  match s.lookup id with
  | none => Except.error TodoError.NotFoundError
  | some t =>
    if validTitle (f.title.getD t.title) then
      let recs := s.records.map (fun r => if r.id == id then applyFields r f now else r)
      Except.ok { s with records := recs }
    else
      Except.error TodoError.ValidationError

/-- Modelled from the spec: `delete(id)` — removes the record, or
`NotFoundError` when the id does not exist. -/
def TodoStore.delete (s : TodoStore) (id : Nat) :
    Except TodoError TodoStore :=
  match s.lookup id with
  | none => Except.error TodoError.NotFoundError
  | some _ =>
    let recs := s.records.filter (fun r => !(r.id == id))
    Except.ok { s with records := recs }

/-- Modelled from the spec: `toggle_resolved(id)` — flips `is_resolved`
and refreshes `updated_at`, or `NotFoundError` when the id does not
exist. -/
def TodoStore.toggle_resolved (s : TodoStore) (id : Nat) (now : Nat) :
    Except TodoError TodoStore :=
  match s.lookup id with
  | none => Except.error TodoError.NotFoundError
  | some _ =>
    let recs := s.records.map (fun r =>
      if r.id == id then { r with is_resolved := !r.is_resolved, updated_at := now }
      else r)
    Except.ok { s with records := recs }

/-- Modelled from the spec: `list_all()` — the full set of records,
partitioned with unresolved records first and resolved records second
(default listing order of section 3). -/
def TodoStore.list_all (s : TodoStore) : List Todo :=
  s.records.filter (fun r => !r.is_resolved)
    ++ s.records.filter (fun r => r.is_resolved)

/-- The store a caller holds after running `create`: the new store on
success, the old store untouched on failure. -/
def applyCreate (s : TodoStore) (now : Nat) (title descr : String)
    (due_date : Option Date) (is_resolved : Bool) : TodoStore :=
  match s.create now title descr due_date is_resolved with
  | Except.ok p => p.1
  | Except.error _ => s

/-- The store a caller holds after running `update`. -/
def applyUpdate (s : TodoStore) (id : Nat) (now : Nat)
    (f : UpdateFields) : TodoStore :=
  match s.update id now f with
  | Except.ok s' => s'
  | Except.error _ => s

/-- The store a caller holds after running `delete`. -/
def applyDelete (s : TodoStore) (id : Nat) : TodoStore :=
  match s.delete id with
  | Except.ok s' => s'
  | Except.error _ => s

/-- The store a caller holds after running `toggle_resolved`. -/
def applyToggle (s : TodoStore) (id : Nat) (now : Nat) : TodoStore :=
  match s.toggle_resolved id now with
  | Except.ok s' => s'
  | Except.error _ => s

/-- The field list of `TodoForm` in `todos/forms.py`:
`fields = ['title', 'description', 'due_date', 'is_resolved']`. -/
def todoFormFields : List String :=
  ["title", "description", "due_date", "is_resolved"]

/-- A concrete unresolved record used by the witnesses. -/
def sampleTodo : Todo :=
  { id := 1, title := "Pay bills", description := "", due_date := some (-1),
    is_resolved := false, created_at := 0, updated_at := 0 }

/-- A concrete one-record store used by the witnesses. -/
def sampleStore : TodoStore :=
  { records := [sampleTodo], nextId := 2 }

/-! ## Helper lemmas -/

/-- `validTitle` unfolded to the spec's wording. -/
theorem validTitle_iff (title : String) :
    validTitle title = true ↔ ¬(title = "" ∨ 200 < title.length) := by
  simp [validTitle, not_or, Nat.not_lt]

/-- An unknown id makes `update` fail with `NotFoundError`. -/
theorem update_of_lookup_none (s : TodoStore) (id now : Nat)
    (f : UpdateFields) (h : s.lookup id = none) :
    s.update id now f = Except.error TodoError.NotFoundError := by
  simp [TodoStore.update, h]

/-- An unknown id makes `delete` fail with `NotFoundError`. -/
theorem delete_of_lookup_none (s : TodoStore) (id : Nat)
    (h : s.lookup id = none) :
    s.delete id = Except.error TodoError.NotFoundError := by
  simp [TodoStore.delete, h]

/-- An unknown id makes `toggle_resolved` fail with `NotFoundError`. -/
theorem toggle_of_lookup_none (s : TodoStore) (id now : Nat)
    (h : s.lookup id = none) :
    s.toggle_resolved id now = Except.error TodoError.NotFoundError := by
  simp [TodoStore.toggle_resolved, h]

/-- Mapping an id-preserving function over the records maps the record
`find?` returns. -/
theorem find_id_map (l : List Todo) (id : Nat) (g : Todo → Todo)
    (hg : ∀ r, (g r).id = r.id) (t : Todo)
    (h : l.find? (fun r => r.id == id) = some t) :
    (l.map g).find? (fun r => r.id == id) = some (g t) := by
  induction l with
  | nil => simp at h
  | cons a l ih =>
    rw [List.map_cons]
    by_cases hc : (a.id == id) = true
    · have h1 : List.find? (fun r => r.id == id) (a :: l) = some a :=
        List.find?_cons_of_pos _ hc
      rw [h1] at h
      have ht : a = t := by injection h
      subst ht
      have h2 : ((g a).id == id) = true := by rw [hg]; exact hc
      have h3 : List.find? (fun r => r.id == id) (g a :: List.map g l) = some (g a) :=
        List.find?_cons_of_pos _ h2
      exact h3
    · have h1 : List.find? (fun r => r.id == id) (a :: l) =
          List.find? (fun r => r.id == id) l :=
        List.find?_cons_of_neg _ hc
      rw [h1] at h
      have h2 : ¬((g a).id == id) = true := by rw [hg]; exact hc
      have h3 : List.find? (fun r => r.id == id) (g a :: List.map g l) =
          List.find? (fun r => r.id == id) (List.map g l) :=
        List.find?_cons_of_neg _ h2
      rw [h3]
      exact ih h

/-- After filtering an id out, no record with that id is found. -/
theorem find_filter_ne (l : List Todo) (id : Nat) :
    (l.filter (fun r => !(r.id == id))).find? (fun r => r.id == id) = none := by
  rw [List.find?_eq_none]
  intro x hx
  have := List.of_mem_filter hx
  simpa using this

/-! ## Claims -/

/-- C1: `is_overdue()` returns true iff `due_date` is present, strictly
before the current date, and `is_resolved` is false; in every other case
it returns false. -/
theorem is_overdue_iff (t : Todo) (today : Date) :
    t.is_overdue today = true ↔
      (∃ d, t.due_date = some d ∧ d < today) ∧ t.is_resolved = false := by
  cases hd : t.due_date with
  | none => simp [Todo.is_overdue, hd]
  | some d => simp [Todo.is_overdue, hd]

/-- C2: `list_all()` returns the stored records (a permutation of the
table), partitioned with every unresolved record before every resolved
record; no secondary order within a partition is claimed. -/
theorem list_all_partitions (s : TodoStore) :
    s.list_all.Perm s.records ∧
    ∃ n, (∀ t ∈ s.list_all.take n, t.is_resolved = false) ∧
         (∀ t ∈ s.list_all.drop n, t.is_resolved = true) := by
  constructor
  · have h := List.filter_append_perm (fun r : Todo => !r.is_resolved) s.records
    simp only [Bool.not_not] at h
    exact h
  · refine ⟨(s.records.filter (fun r => !r.is_resolved)).length, ?_, ?_⟩
    · intro t ht
      rw [TodoStore.list_all, List.take_left] at ht
      have := List.of_mem_filter ht
      simpa using this
    · intro t ht
      rw [TodoStore.list_all, List.drop_left] at ht
      exact List.of_mem_filter ht

/-- C3: `create` and `update` fail with `ValidationError` exactly when
the given title is empty or over 200 characters, and succeed on the
title constraint otherwise. -/
theorem title_validation (s : TodoStore) (now : Nat) (title descr : String)
    (dd : Option Date) (r : Bool) (id : Nat) (t : Todo) (f : UpdateFields)
    (hid : s.lookup id = some t) (hf : f.title = some title) :
    (s.create now title descr dd r = Except.error TodoError.ValidationError
        ↔ (title = "" ∨ 200 < title.length))
  ∧ (s.update id now f = Except.error TodoError.ValidationError
        ↔ (title = "" ∨ 200 < title.length))
  ∧ (¬(title = "" ∨ 200 < title.length) →
      (∃ p, s.create now title descr dd r = Except.ok p)
    ∧ (∃ s', s.update id now f = Except.ok s')) := by
  cases hv : validTitle title with
  | true =>
    have hgood : ¬(title = "" ∨ 200 < title.length) := (validTitle_iff title).mp hv
    refine ⟨?_, ?_, ?_⟩
    · simp [TodoStore.create, hv, hgood]
    · simp [TodoStore.update, hid, hf, hv, hgood]
    · intro _
      refine ⟨⟨({ records := s.records ++ [⟨s.nextId, title, descr, dd, r, now, now⟩],
                  nextId := s.nextId + 1 },
                 (⟨s.nextId, title, descr, dd, r, now, now⟩ : Todo)), ?_⟩,
              ⟨{ records := s.records.map
                   (fun x => if x.id == id then applyFields x f now else x),
                 nextId := s.nextId }, ?_⟩⟩
      · simp [TodoStore.create, hv]
      · simp [TodoStore.update, hid, hf, hv]
  | false =>
    have hbad : title = "" ∨ 200 < title.length := by
      by_contra hc
      rw [(validTitle_iff title).mpr hc] at hv
      cases hv
    refine ⟨?_, ?_, ?_⟩
    · simp [TodoStore.create, hv, hbad]
    · simp [TodoStore.update, hid, hf, hv, hbad]
    · intro hc
      exact absurd hbad hc

/-- Witness for C3 at a concrete store and a concrete valid title. -/
theorem title_validation_witness :
    (sampleStore.create 1 "New" "" none false = Except.error TodoError.ValidationError
        ↔ ("New" = "" ∨ 200 < "New".length))
  ∧ (sampleStore.update 1 1 { title := some "New" } = Except.error TodoError.ValidationError
        ↔ ("New" = "" ∨ 200 < "New".length))
  ∧ (¬("New" = "" ∨ 200 < "New".length) →
      (∃ p, sampleStore.create 1 "New" "" none false = Except.ok p)
    ∧ (∃ s', sampleStore.update 1 1 { title := some "New" } = Except.ok s')) :=
  title_validation sampleStore 1 "New" "" none false 1 sampleTodo
    { title := some "New" } rfl rfl

/-- C4: on an id that does not identify an existing record, `update`,
`delete` and `toggle_resolved` all fail with `NotFoundError` and the
stored set of records is unchanged. -/
theorem nonexistent_id_fails (s : TodoStore) (id now : Nat) (f : UpdateFields)
    (h : s.lookup id = none) :
    s.update id now f = Except.error TodoError.NotFoundError
  ∧ s.delete id = Except.error TodoError.NotFoundError
  ∧ s.toggle_resolved id now = Except.error TodoError.NotFoundError
  ∧ applyUpdate s id now f = s
  ∧ applyDelete s id = s
  ∧ applyToggle s id now = s := by
  refine ⟨update_of_lookup_none s id now f h, delete_of_lookup_none s id h,
    toggle_of_lookup_none s id now h, ?_, ?_, ?_⟩
  · simp [applyUpdate, update_of_lookup_none s id now f h]
  · simp [applyDelete, delete_of_lookup_none s id h]
  · simp [applyToggle, toggle_of_lookup_none s id now h]

/-- Witness for C4 at a concrete store and an absent id. -/
theorem nonexistent_id_fails_witness :
    sampleStore.update 99 5 {} = Except.error TodoError.NotFoundError
  ∧ sampleStore.delete 99 = Except.error TodoError.NotFoundError
  ∧ sampleStore.toggle_resolved 99 5 = Except.error TodoError.NotFoundError
  ∧ applyUpdate sampleStore 99 5 {} = sampleStore
  ∧ applyDelete sampleStore 99 = sampleStore
  ∧ applyToggle sampleStore 99 5 = sampleStore :=
  nonexistent_id_fails sampleStore 99 5 {} rfl

/-- C5: creating a Todo with only a title yields a record with
`is_resolved = false`, `description = ""` and no due date. -/
theorem create_default_fields (s : TodoStore) (now : Nat) (title : String)
    (hv : validTitle title = true) :
    ∃ s' t, s.create_default now title = Except.ok (s', t)
      ∧ t.is_resolved = false ∧ t.description = "" ∧ t.due_date = none := by
  refine ⟨{ records := s.records ++ [⟨s.nextId, title, "", none, false, now, now⟩],
            nextId := s.nextId + 1 },
          ⟨s.nextId, title, "", none, false, now, now⟩, ?_, rfl, rfl, rfl⟩
  simp [TodoStore.create_default, TodoStore.create, hv]

/-- Witness for C5 at a concrete store and title. -/
theorem create_default_fields_witness :
    ∃ s' t, sampleStore.create_default 3 "Only title" = Except.ok (s', t)
      ∧ t.is_resolved = false ∧ t.description = "" ∧ t.due_date = none :=
  create_default_fields sampleStore 3 "Only title" (by decide)

/-- Characterization of `is_overdue`, shared by several proofs. -/
theorem is_overdue_char (t : Todo) (today : Date) :
    t.is_overdue today = true ↔
      (∃ d, t.due_date = some d ∧ d < today) ∧ t.is_resolved = false := by
  cases hd : t.due_date with
  | none => simp [Todo.is_overdue, hd]
  | some d => simp [Todo.is_overdue, hd]

/-- C6: `toggle_resolved` negates `is_resolved` and refreshes
`updated_at`; a record that was overdue is no longer overdue after the
toggle. -/
theorem toggle_flips (s : TodoStore) (id now : Nat) (t : Todo)
    (h : s.lookup id = some t) :
    ∃ s', s.toggle_resolved id now = Except.ok s'
      ∧ s'.lookup id = some { t with is_resolved := !t.is_resolved, updated_at := now }
      ∧ (∀ today : Date, t.is_overdue today = true →
          Todo.is_overdue { t with is_resolved := !t.is_resolved, updated_at := now } today
            = false) := by
  have hfind : s.records.find? (fun r => r.id == id) = some t := h
  have hpred : (t.id == id) = true :=
    @List.find?_some Todo (fun r => r.id == id) t s.records hfind
  refine ⟨TodoStore.mk (s.records.map (fun r =>
      if r.id == id then { r with is_resolved := !r.is_resolved, updated_at := now }
      else r)) s.nextId, ?_, ?_, ?_⟩
  · simp [TodoStore.toggle_resolved, h]
  · have hm := find_id_map s.records id
      (fun r => if r.id == id then { r with is_resolved := !r.is_resolved, updated_at := now }
                else r)
      (fun r => by dsimp only; split <;> rfl) t hfind
    simp only [TodoStore.lookup]
    rw [hm]
    simp [hpred]
  · intro today hov
    rcases (is_overdue_char t today).mp hov with ⟨-, hres⟩
    cases hb : Todo.is_overdue { t with is_resolved := !t.is_resolved, updated_at := now } today with
    | false => rfl
    | true =>
      rcases (is_overdue_char _ today).mp hb with ⟨-, hres2⟩
      have h2 : (!t.is_resolved) = false := hres2
      rw [hres] at h2
      cases h2

/-- Witness for C6 at a concrete store and record. -/
theorem toggle_flips_witness :
    ∃ s', sampleStore.toggle_resolved 1 7 = Except.ok s'
      ∧ s'.lookup 1 = some { sampleTodo with is_resolved := !sampleTodo.is_resolved, updated_at := 7 }
      ∧ (∀ today : Date, sampleTodo.is_overdue today = true →
          Todo.is_overdue { sampleTodo with is_resolved := !sampleTodo.is_resolved, updated_at := 7 } today = false) :=
  toggle_flips sampleStore 1 7 sampleTodo rfl

/-- C7: a successful `update` refreshes `updated_at` (strictly advancing
it when time has advanced) and leaves `id`, `created_at` and every field
not listed in the update unchanged. -/
theorem update_frame (s : TodoStore) (id now : Nat) (f : UpdateFields) (t : Todo)
    (h : s.lookup id = some t)
    (hv : validTitle (f.title.getD t.title) = true)
    (hnow : t.updated_at < now) :
    ∃ s' u, s.update id now f = Except.ok s'
      ∧ s'.lookup id = some u
      ∧ u = applyFields t f now
      ∧ u.id = t.id ∧ u.created_at = t.created_at ∧ u.updated_at = now
      ∧ t.updated_at < u.updated_at
      ∧ (f.title = none → u.title = t.title)
      ∧ (f.description = none → u.description = t.description)
      ∧ (f.due_date = none → u.due_date = t.due_date)
      ∧ (f.is_resolved = none → u.is_resolved = t.is_resolved) := by
  have hfind : s.records.find? (fun r => r.id == id) = some t := h
  have hpred : (t.id == id) = true :=
    @List.find?_some Todo (fun r => r.id == id) t s.records hfind
  refine ⟨TodoStore.mk (s.records.map (fun r =>
      if r.id == id then applyFields r f now else r)) s.nextId,
    applyFields t f now, ?_, ?_, rfl, rfl, rfl, rfl, hnow, ?_, ?_, ?_, ?_⟩
  · simp [TodoStore.update, h, hv]
  · have hm := find_id_map s.records id
      (fun r => if r.id == id then applyFields r f now else r)
      (fun r => by dsimp only; split <;> rfl) t hfind
    simp only [TodoStore.lookup]
    rw [hm]
    simp [hpred]
  · intro hfn
    simp [applyFields, hfn]
  · intro hfn
    simp [applyFields, hfn]
  · intro hfn
    simp [applyFields, hfn]
  · intro hfn
    simp [applyFields, hfn]

/-- Witness for C7 at a concrete store, updating only the description. -/
theorem update_frame_witness :
    ∃ s' u, sampleStore.update 1 4 { description := some "note" } = Except.ok s'
      ∧ s'.lookup 1 = some u
      ∧ u = applyFields sampleTodo { description := some "note" } 4
      ∧ u.id = sampleTodo.id ∧ u.created_at = sampleTodo.created_at ∧ u.updated_at = 4
      ∧ sampleTodo.updated_at < u.updated_at
      ∧ (({ description := some "note" } : UpdateFields).title = none → u.title = sampleTodo.title)
      ∧ (({ description := some "note" } : UpdateFields).description = none → u.description = sampleTodo.description)
      ∧ (({ description := some "note" } : UpdateFields).due_date = none → u.due_date = sampleTodo.due_date)
      ∧ (({ description := some "note" } : UpdateFields).is_resolved = none → u.is_resolved = sampleTodo.is_resolved) :=
  update_frame sampleStore 1 4 { description := some "note" } sampleTodo
    rfl (by decide) (by decide)

/-- C8: after a successful `delete`, the record is gone: lookup finds
nothing, `update`, `delete` and `toggle_resolved` on the id fail with
`NotFoundError`, and no record with the id appears in `list_all()`. -/
theorem delete_removes (s : TodoStore) (id : Nat) (t : Todo) (now : Nat)
    (f : UpdateFields) (h : s.lookup id = some t) :
    ∃ s', s.delete id = Except.ok s'
      ∧ s'.lookup id = none
      ∧ s'.update id now f = Except.error TodoError.NotFoundError
      ∧ s'.delete id = Except.error TodoError.NotFoundError
      ∧ s'.toggle_resolved id now = Except.error TodoError.NotFoundError
      ∧ ∀ r ∈ s'.list_all, r.id ≠ id := by
  refine ⟨TodoStore.mk (s.records.filter (fun r => !(r.id == id))) s.nextId,
    ?_, ?_, ?_, ?_, ?_, ?_⟩
  · simp [TodoStore.delete, h]
  · exact find_filter_ne s.records id
  · exact update_of_lookup_none _ id now f (find_filter_ne s.records id)
  · exact delete_of_lookup_none _ id (find_filter_ne s.records id)
  · exact toggle_of_lookup_none _ id now (find_filter_ne s.records id)
  · intro r hr
    rw [TodoStore.list_all, List.mem_append] at hr
    have hrrec : r ∈ s.records.filter (fun x => !(x.id == id)) := by
      cases hr with
      | inl h1 => exact (List.mem_filter.mp h1).1
      | inr h1 => exact (List.mem_filter.mp h1).1
    have := List.of_mem_filter hrrec
    simpa using this

/-- Witness for C8 at a concrete store and record. -/
theorem delete_removes_witness :
    ∃ s', sampleStore.delete 1 = Except.ok s'
      ∧ s'.lookup 1 = none
      ∧ s'.update 1 2 {} = Except.error TodoError.NotFoundError
      ∧ s'.delete 1 = Except.error TodoError.NotFoundError
      ∧ s'.toggle_resolved 1 2 = Except.error TodoError.NotFoundError
      ∧ ∀ r ∈ s'.list_all, r.id ≠ 1 :=
  delete_removes sampleStore 1 sampleTodo 2 {} rfl

/-- C9: every operation is atomic — on failure the caller's store is
exactly the store before the operation; in particular a create with an
invalid title adds no record. -/
theorem failed_ops_atomic (s : TodoStore) (now : Nat) (title descr : String)
    (dd : Option Date) (r : Bool) (id : Nat) (f : UpdateFields) :
    (validTitle title = false → applyCreate s now title descr dd r = s)
  ∧ (s.lookup id = none →
      applyUpdate s id now f = s ∧ applyDelete s id = s ∧ applyToggle s id now = s)
  ∧ (∀ t, s.lookup id = some t → validTitle (f.title.getD t.title) = false →
      applyUpdate s id now f = s) := by
  refine ⟨?_, ?_, ?_⟩
  · intro hv
    simp [applyCreate, TodoStore.create, hv]
  · intro h
    exact ⟨by simp [applyUpdate, update_of_lookup_none s id now f h],
           by simp [applyDelete, delete_of_lookup_none s id h],
           by simp [applyToggle, toggle_of_lookup_none s id now h]⟩
  · intro t ht hv
    simp [applyUpdate, TodoStore.update, ht, hv]

/-- C10: the form exposes `is_resolved` as an editable field alongside
title, description and due date, and a Todo can be created already
resolved directly through it. -/
theorem form_exposes_is_resolved (s : TodoStore) (now : Nat)
    (title descr : String) (dd : Option Date)
    (hv : validTitle title = true) :
    "is_resolved" ∈ todoFormFields
  ∧ "title" ∈ todoFormFields
  ∧ "description" ∈ todoFormFields
  ∧ "due_date" ∈ todoFormFields
  ∧ ∃ s' t, s.create now title descr dd true = Except.ok (s', t)
      ∧ t.is_resolved = true ∧ t ∈ s'.records := by
  refine ⟨by simp [todoFormFields], by simp [todoFormFields],
    by simp [todoFormFields], by simp [todoFormFields], ?_⟩
  refine ⟨TodoStore.mk (s.records ++ [⟨s.nextId, title, descr, dd, true, now, now⟩])
      (s.nextId + 1),
    ⟨s.nextId, title, descr, dd, true, now, now⟩, ?_, rfl, ?_⟩
  · simp [TodoStore.create, hv]
  · simp

/-- Witness for C10 at a concrete store. -/
theorem form_exposes_is_resolved_witness :
    "is_resolved" ∈ todoFormFields
  ∧ "title" ∈ todoFormFields
  ∧ "description" ∈ todoFormFields
  ∧ "due_date" ∈ todoFormFields
  ∧ ∃ s' t, sampleStore.create 9 "Done already" "" none true = Except.ok (s', t)
      ∧ t.is_resolved = true ∧ t ∈ s'.records :=
  form_exposes_is_resolved sampleStore 9 "Done already" "" none (by decide)
